import Mathlib

/-!
Shallow embedding of the `andres_scripts` chat-agent scripts of this
repository, together with theorems settling the frozen claims about them.

Conventions of the embedding:
* Python strings are Lean `String`s; character-level work is done on
  `String.data : List Char`.
* Python `pat in s` (substring test) is `strContains s pat`.
* Python `s.replace(old, new)` is `pyReplace` (left-to-right,
  non-overlapping, as CPython does it).
* Python `s.strip()` is `pyStrip` (whitespace trimmed from both ends).
* Python `s.lower()` is `pyLower`; it is modelled on the alphabet the
  scripts actually use (ASCII plus the Latin-1 letters of Spanish).
* Python `"\n".join(xs)` is `joinNl`.
* Mutating methods become functions returning an updated record.
-/

/-- Substring test on character lists: does `pat` occur inside `s`?
Matches Python `pat in s` (the empty pattern occurs in every string). -/
def containsSub (pat : List Char) : List Char → Bool
  | [] => pat.isPrefixOf []
  | c :: rest => pat.isPrefixOf (c :: rest) || containsSub pat rest

/-- Python `pat in s` for Lean strings. -/
def strContains (s pat : String) : Bool :=
  containsSub pat.data s.data

/-- Fuel-driven worker for Python `str.replace`: scans left to right and
replaces non-overlapping occurrences of `old` by `new`.  The fuel only
bounds recursion depth; `fuel = s.length` always suffices because every
step consumes at least one character of `s`. -/
def pyReplaceFuel (old new : List Char) : Nat → List Char → List Char
  | _, [] => []
  | 0, s => s
  | fuel + 1, c :: rest =>
    if old ≠ [] ∧ old.isPrefixOf (c :: rest) then
      new ++ pyReplaceFuel old new fuel ((c :: rest).drop old.length)
    else
      c :: pyReplaceFuel old new fuel rest

/-- Python `s.replace(old, new)` on character lists. -/
def pyReplace (s old new : List Char) : List Char :=
  pyReplaceFuel old new s.length s

/-- The whitespace characters Python `str.strip()` removes (the ASCII
ones; the scripts never produce other Unicode whitespace). -/
def pyIsSpace (c : Char) : Bool :=
  c.toNat = 32 || c.toNat = 9 || c.toNat = 10 || c.toNat = 13 ||
  c.toNat = 11 || c.toNat = 12

/-- Python `s.strip()` on character lists. -/
def pyStrip (s : List Char) : List Char :=
  ((s.dropWhile pyIsSpace).reverse.dropWhile pyIsSpace).reverse

/-- Python `"\n".join(xs)`. -/
def joinNl : List String → String
  | [] => ""
  | [x] => x
  | x :: y :: rest => x ++ "\n" ++ joinNl (y :: rest)

/-- Python `str.lower()` on one character, for the alphabet the scripts
use: ASCII letters plus the Latin-1 supplement letters of Spanish
(`À`..`Þ` map to their lowercase forms by adding 32, except `×`). -/
def pyLowerChar (c : Char) : Char :=
  if 65 ≤ c.toNat ∧ c.toNat ≤ 90 then Char.ofNat (c.toNat + 32)
  else if 192 ≤ c.toNat ∧ c.toNat ≤ 222 ∧ c.toNat ≠ 215 then
    Char.ofNat (c.toNat + 32)
  else c

/-- Python `s.lower()` for Lean strings (see `pyLowerChar` for scope). -/
def pyLower (s : String) : String :=
  ⟨s.data.map pyLowerChar⟩

namespace Script09
/-! Embedding of `09_chat_agent_math_tutor.py`. -/

/-- The control-transfer sentinel the math-tutor agents embed in their
free-text responses (`"[TRANSFERENCIA_CONTROL]"`). -/
def sentinel : String := "[TRANSFERENCIA_CONTROL]"

/-- The `ChatMemoryContext` dataclass of `09_chat_agent_math_tutor.py`
(lines 35-46).  `user_feedback` is a Python dict from expression to
feedback; it is modelled as an insertion-ordered association list. -/
structure ChatMemoryContext where
  history : List String
  session_id : String
  topic : String
  knowledge_level : String
  math_expressions : List String
  user_feedback : List (String × String)
  scaffold_exercise : String
  scaffold_solution : String
  scaffold_understood : Bool
  current_flow_state : String
deriving DecidableEq

/-- A fresh context whose `current_flow_state` is `s` and whose other
fields hold the dataclass defaults (empty collections and strings). -/
def ctxWith (s : String) : ChatMemoryContext :=
  ⟨[], "", "", "", [], [], "", "", false, s⟩

/-- `ChatMemoryContext.add_message` (lines 48-50): appends
`f"{role}: {content}"` to `history`. -/
def add_message (c : ChatMemoryContext) (role content : String) :
    ChatMemoryContext :=
  { c with history := c.history ++ [role ++ ": " ++ content] }

/-- `ChatMemoryContext.get_history` (lines 52-54): `"\n".join(history)`. -/
def get_history (c : ChatMemoryContext) : String :=
  joinNl c.history

/-- `ChatMemoryContext.advance_flow` (lines 72-84): the if/elif chain
moving `current_flow_state` one step along
initial → diagnostic → calibration → scaffolding → final. -/
def advance_flow (c : ChatMemoryContext) : ChatMemoryContext :=
  if c.current_flow_state = "initial" then
    { c with current_flow_state := "diagnostic" }
  else if c.current_flow_state = "diagnostic" then
    { c with current_flow_state := "calibration" }
  else if c.current_flow_state = "calibration" then
    { c with current_flow_state := "scaffolding" }
  else if c.current_flow_state = "scaffolding" then
    { c with current_flow_state := "final" }
  else c

/-- The five `current_flow_state` values of the math-tutor flow, in
their linear order (comment at line 46 of the script). -/
def phases : List String :=
  ["initial", "diagnostic", "calibration", "scaffolding", "final"]

/-- The sentinel-stripping done at line 419 of `analyze_conversation`:
`response_content.replace("[TRANSFERENCIA_CONTROL]", "").strip()`. -/
def sentinelStripped (response_content : String) : String :=
  ⟨pyStrip (pyReplace response_content.data sentinel.data [])⟩

/-- The effect of `analyze_conversation` (lines 387-494) on
`context.current_flow_state`.  Faithful to the source:
* when the sentinel occurs, the block at lines 404-419 strips every
  occurrence from `response_content` (the Spanish-named local
  `new_flow_state` computed there is returned but discarded by every
  caller, so it is not modelled);
* the check at line 470 then runs on the *stripped* content, advancing
  the flow only for states diagnostic/calibration/scaffolding;
* otherwise the forced transfer at lines 485-492 advances the flow when
  the state is calibration and `user_feedback` is non-empty.
The topic/level/expression/feedback extraction of lines 421-467 touches
other fields only; theorems quantify over `c.user_feedback`, which
stands for the dict as of the line-486 check. -/
def analyze_conversation_flow (c : ChatMemoryContext)
    (response_content : String) : ChatMemoryContext :=
  let content1 :=
    if strContains response_content sentinel then
      sentinelStripped response_content
    else response_content
  if strContains content1 sentinel then
    if c.current_flow_state = "diagnostic" then advance_flow c
    else if c.current_flow_state = "calibration" then advance_flow c
    else if c.current_flow_state = "scaffolding" then advance_flow c
    else c
  else
    if c.current_flow_state = "calibration" ∧ c.user_feedback ≠ [] then
      advance_flow c
    else c

/-- The effect on `current_flow_state` of the response-handling tail of
the main chat loop (lines 806-941) for one agent response:
* lines 806-852: in state diagnostic, when both diagnostic questions are
  already in the history (`questions_asked_ge2`) and the response asks no
  further question, the state is forced to calibration;
* lines 856-938: an explicit `[TRANSFERENCIA_CONTROL]` in the response
  moves diagnostic → calibration, calibration → scaffolding,
  scaffolding → final, each followed by `continue`;
* otherwise line 941 hands the response to `analyze_conversation`.
History/display bookkeeping does not touch `current_flow_state` and is
modelled separately by `add_message`. -/
def chat_response_step (c : ChatMemoryContext)
    (questions_asked_ge2 : Bool) (response_text : String) :
    ChatMemoryContext :=
  if c.current_flow_state = "diagnostic" ∧ questions_asked_ge2 = true ∧
      strContains response_text "?" = false then
    { c with current_flow_state := "calibration" }
  else if strContains response_text sentinel then
    if c.current_flow_state = "diagnostic" then
      { c with current_flow_state := "calibration" }
    else if c.current_flow_state = "calibration" then
      { c with current_flow_state := "scaffolding" }
    else if c.current_flow_state = "scaffolding" then
      { c with current_flow_state := "final" }
    else analyze_conversation_flow c response_text
  else analyze_conversation_flow c response_text

/-- `process_response_for_display` (lines 523-529): a response carrying
the sentinel is replaced by the empty string, any other response is
returned unchanged. -/
def process_response_for_display (response : String) : String :=
  if strContains response sentinel then "" else response

end Script09

namespace Script08
/-! Embedding of `08_chat_agent_with_unified_memory.py` (lines 7-15). -/

/-- The `ChatMemoryContext` dataclass of the unified-memory script: a
plain record holding the conversation history. -/
structure ChatMemoryContext where
  history : List String
deriving DecidableEq

/-- `add_message` (lines 10-11): appends `f"{role}: {content}"`. -/
def add_message (c : ChatMemoryContext) (role content : String) :
    ChatMemoryContext :=
  { c with history := c.history ++ [role ++ ": " ++ content] }

/-- `get_history` (lines 13-15): `"\n".join(history)`. -/
def get_history (c : ChatMemoryContext) : String :=
  joinNl c.history

end Script08

namespace Script05
/-! Embedding of `05_chat_agent_sequential_handoff.py` (lines 7-25). -/

/-- The `ChatMemoryContext` dataclass: history plus two per-language
response counters (Python ints starting at 0 and only incremented). -/
structure ChatMemoryContext where
  history : List String
  spanish_responses : Nat
  english_responses : Nat
deriving DecidableEq

/-- A fresh context (the dataclass defaults). -/
def init : ChatMemoryContext := ⟨[], 0, 0⟩

/-- `add_message` (lines 13-19): appends `f"{role}: {content}"`; for an
assistant message the first two go to the Spanish counter, later ones to
the English counter. -/
def add_message (c : ChatMemoryContext) (role content : String) :
    ChatMemoryContext :=
  let c := { c with history := c.history ++ [role ++ ": " ++ content] }
  if role = "assistant" then
    if c.spanish_responses < 2 then
      { c with spanish_responses := c.spanish_responses + 1 }
    else
      { c with english_responses := c.english_responses + 1 }
  else c

/-- `can_respond` (lines 24-25):
`(spanish_responses + english_responses) < 4`. -/
def can_respond (c : ChatMemoryContext) : Bool :=
  c.spanish_responses + c.english_responses < 4

/-- Replays a list of `(role, content)` messages through `add_message`
starting from a fresh context. -/
def runMsgs (msgs : List (String × String)) : ChatMemoryContext :=
  msgs.foldl (fun c m => add_message c m.1 m.2) init

end Script05

namespace Script07
/-! Embedding of `07_chat_agent_sequential_programmatic.py` (lines 7-23). -/

/-- The `ChatMemoryContext` dataclass: history plus a total response
counter and two per-language counters. -/
structure ChatMemoryContext where
  history : List String
  response_count : Nat
  spanish_responses : Nat
  english_responses : Nat
deriving DecidableEq

/-- A fresh context (the dataclass defaults). -/
def init : ChatMemoryContext := ⟨[], 0, 0, 0⟩

/-- `add_message` (lines 14-17): appends `f"{role}: {content}"` and
counts assistant messages in `response_count`. -/
def add_message (c : ChatMemoryContext) (role content : String) :
    ChatMemoryContext :=
  let c := { c with history := c.history ++ [role ++ ": " ++ content] }
  if role = "assistant" then
    { c with response_count := c.response_count + 1 }
  else c

/-- `can_respond` (lines 22-23): `response_count < 4`. -/
def can_respond (c : ChatMemoryContext) : Bool :=
  c.response_count < 4

/-- Replays a list of `(role, content)` messages through `add_message`
starting from a fresh context. -/
def runMsgs (msgs : List (String × String)) : ChatMemoryContext :=
  msgs.foldl (fun c m => add_message c m.1 m.2) init

end Script07

namespace Script04p
/-! Embedding of `detect_language` from `04_chat_agent_programmatic.py`
(lines 113-134). -/

/-- The Spanish word/character patterns (line 116). -/
def spanish_patterns : List String :=
  ["ñ", "á", "é", "í", "ó", "ú", "ü", "¿", "¡",
   "como", "qué", "cómo", "hola", "buenos", "gracias",
   "por favor", "adios", "día"]

/-- The English word patterns (line 121). -/
def english_patterns : List String :=
  ["hello", "the", "hi", "thanks", "what", "where",
   "when", "who", "why", "how", "please", "good"]

/-- `detect_language` (lines 113-134): lowercases the text, counts the
patterns of each language occurring as substrings, and answers
`"spanish"` exactly on a strict Spanish majority. -/
def detect_language (text : String) : String :=
  let text := pyLower text
  let spanish_count := spanish_patterns.countP (fun p => strContains text p)
  let english_count := english_patterns.countP (fun p => strContains text p)
  if spanish_count > english_count then "spanish" else "english"

end Script04p

namespace Script06p
/-! Embedding of `detect_language` from `06_chat_agent_programmatic.py`
(lines 162-196); the body is character-for-character the one of
`04_chat_agent_programmatic.py`. -/

/-- The Spanish word/character patterns (line 179). -/
def spanish_patterns : List String :=
  ["ñ", "á", "é", "í", "ó", "ú", "ü", "¿", "¡",
   "como", "qué", "cómo", "hola", "buenos", "gracias",
   "por favor", "adios", "día"]

/-- The English word patterns (line 184). -/
def english_patterns : List String :=
  ["hello", "the", "hi", "thanks", "what", "where",
   "when", "who", "why", "how", "please", "good"]

/-- `detect_language` (lines 162-196). -/
def detect_language (text : String) : String :=
  let text := pyLower text
  let spanish_count := spanish_patterns.countP (fun p => strContains text p)
  let english_count := english_patterns.countP (fun p => strContains text p)
  if spanish_count > english_count then "spanish" else "english"

end Script06p

/-- Model of a Python float as the scripts use it: either the `NaN`
marker produced by `float("nan")` or an ordinary numeric value
(represented by a rational; no other floating-point behaviour is
exercised by the scripts). -/
inductive PyFloat where
  | nan : PyFloat
  | val : ℚ → PyFloat
deriving DecidableEq

namespace Script03
/-! Embedding of `03_chat_agent_basic.py`. -/

/-- The `Weather` pydantic model (lines 22-34). -/
structure Weather where
  city : String
  temperature_range : String
  conditions : String
deriving DecidableEq

/-- The `CalculatorResult` pydantic model (lines 36-44). -/
structure CalculatorResult where
  operation : String
  result : PyFloat
deriving DecidableEq

/-- `get_weather` (lines 47-63): echoes the city and returns the fixed
temperature range and conditions. -/
def get_weather (city : String) : Weather :=
  ⟨city, "14-20C", "Sunny with wind."⟩

/-- `calculate` (lines 66-83).  The Python builtin `eval` (and the
pydantic construction of the result, both inside the `try`) is external
code, abstracted as an oracle `ev`: `ev op = some v` models the `try`
block succeeding with value `v`, `ev op = none` models it raising; the
`except Exception` arm then returns `float("nan")` with the unchanged
operation string. -/
def calculate (ev : String → Option PyFloat) (operation : String) :
    CalculatorResult :=
  match ev operation with
  | some r => ⟨operation, r⟩
  | none => ⟨operation, PyFloat.nan⟩

end Script03

namespace Script04m
/-! Embedding of `04_chat_agent_with_memory.py` (tools at lines 100-126). -/

/-- The `Weather` pydantic model of the script. -/
structure Weather where
  city : String
  temperature_range : String
  conditions : String
deriving DecidableEq

/-- The `CalculatorResult` pydantic model of the script. -/
structure CalculatorResult where
  operation : String
  result : PyFloat
deriving DecidableEq

/-- `get_weather` (lines 109-116). -/
def get_weather (city : String) : Weather :=
  ⟨city, "14-20C", "Sunny with wind."⟩

/-- `calculate` (lines 119-126); same shape as in
`03_chat_agent_basic.py`, with `eval` abstracted as the oracle `ev`. -/
def calculate (ev : String → Option PyFloat) (operation : String) :
    CalculatorResult :=
  match ev operation with
  | some r => ⟨operation, r⟩
  | none => ⟨operation, PyFloat.nan⟩

end Script04m

namespace Script02
/-! Embedding of `02_test_tools.py`. -/

/-- The `Weather` pydantic model (lines 28-40). -/
structure Weather where
  city : String
  temperature_range : String
  conditions : String
deriving DecidableEq

/-- `get_weather` (lines 43-59). -/
def get_weather (city : String) : Weather :=
  ⟨city, "14-20C", "Sunny with wind."⟩

end Script02

/-- Modelled from the spec: the `Agent` constructor of the agents
library is not under `src/`; per the spec a triage agent is one "whose
sole declared purpose is routing to another agent".  An agent
declaration is modelled by its name and the list of tool names passed
to the constructor; `tools` defaults to the empty list when the keyword
is omitted, as in the library.  Instruction prompt strings and the model
name are free text no claim depends on and are not modelled. -/
structure AgentBase where
  name : String
  tools : List String
deriving DecidableEq

/-- Modelled from the spec: an agent constructed with a `handoffs` list
of target agents (the routing-only triage agents of the scripts). -/
structure TriageAgent where
  name : String
  tools : List String
  handoffs : List AgentBase
deriving DecidableEq

/-- A handoff declared as a dict wrapper (script
`05_chat_agent_sequential_handoff.py`, lines 90-103): a name, a
description, and the target agent.  The `input_filter` lambda
(`lambda input_data: input_data.items`) is a projection no claim
depends on and is not modelled. -/
structure HandoffDecl where
  name : String
  description : String
  agent : AgentBase
deriving DecidableEq

/-- A triage agent whose handoffs are dict wrappers (script 05). -/
structure TriageAgentWrapped where
  name : String
  tools : List String
  handoffs : List HandoffDecl
deriving DecidableEq

namespace Script01
/-! Agent declarations of `01_test_agent.py` (lines 25-42). -/

/-- `spanish_agent` (lines 25-28): no tools declared. -/
def spanish_agent : AgentBase := ⟨"Spanish agent", []⟩

/-- `english_agent` (lines 31-34): no tools declared. -/
def english_agent : AgentBase := ⟨"English agent", []⟩

/-- `triage_agent` (lines 37-41): routes to the Spanish and English
agents, declares no tools. -/
def triage_agent : TriageAgent :=
  ⟨"Triage agent", [], [spanish_agent, english_agent]⟩

end Script01

namespace Script03
/-! Agent declarations of `03_chat_agent_basic.py` (lines 86-127). -/

/-- `spanish_agent` (lines 86-97). -/
def spanish_agent : AgentBase :=
  ⟨"Spanish Assistant", ["get_weather", "calculate"]⟩

/-- `english_agent` (lines 99-110). -/
def english_agent : AgentBase :=
  ⟨"English Assistant", ["get_weather", "calculate"]⟩

/-- `triage_agent` (lines 113-127): `handoffs=[spanish_agent,
english_agent]`, no tools declared. -/
def triage_agent : TriageAgent :=
  ⟨"Triage Assistant", [], [spanish_agent, english_agent]⟩

end Script03

namespace Script04m

/-- `create_triage_agent` (lines 184-199 of
`04_chat_agent_with_memory.py`). -/
def create_triage_agent (spanish_agent english_agent : AgentBase) :
    TriageAgent :=
  ⟨"Triage Assistant", [], [spanish_agent, english_agent]⟩

end Script04m

namespace Script05

/-- `create_triage_agent` (lines 78-104): the handoffs are declared as
dict wrappers naming the Spanish and English agents in that order. -/
def create_triage_agent (spanish_agent english_agent : AgentBase) :
    TriageAgentWrapped :=
  ⟨"Triage Agent", [],
   [⟨"spanish_handoff", "Pasa al agente español", spanish_agent⟩,
    ⟨"english_handoff", "Pasa al agente inglés", english_agent⟩]⟩

end Script05

namespace Script05d

/-- `create_triage_agent` of
`05_chat_agent_with_unified_memory[debug].py` (lines 162-177). -/
def create_triage_agent (spanish_agent english_agent : AgentBase) :
    TriageAgent :=
  ⟨"Triage Assistant", [], [spanish_agent, english_agent]⟩

end Script05d

namespace Script07m

/-- `create_triage_agent` of `07_chat_agent_with_memory.py`
(lines 110-125). -/
def create_triage_agent (spanish_agent english_agent : AgentBase) :
    TriageAgent :=
  ⟨"Triage Assistant", [], [spanish_agent, english_agent]⟩

end Script07m

namespace Script08

/-- `create_triage_agent` of `08_chat_agent_with_unified_memory.py`
(lines 93-103). -/
def create_triage_agent (spanish_agent english_agent : AgentBase) :
    TriageAgent :=
  ⟨"Triage Assistant", [], [spanish_agent, english_agent]⟩

end Script08

/-! ## Helper lemmas -/

/-- Appending one string to a history shifts the newline-join by one
separator (or is the string itself on an empty history). -/
theorem joinNl_append :
    ∀ (h : List String) (x : String),
      joinNl (h ++ [x]) = if h = [] then x else joinNl h ++ "\n" ++ x
  | [], _ => rfl
  | [_], _ => rfl
  | a :: b :: t, x => by
    have ih := joinNl_append (b :: t) x
    show a ++ "\n" ++ joinNl ((b :: t) ++ [x]) = _
    rw [ih]
    simp [joinNl, String.append_assoc]

/-- `advance_flow` only rewrites `current_flow_state`, according to the
if/elif chain of the source. -/
theorem s09_advance_flow_state (c : Script09.ChatMemoryContext) :
    (Script09.advance_flow c).current_flow_state =
      if c.current_flow_state = "initial" then "diagnostic"
      else if c.current_flow_state = "diagnostic" then "calibration"
      else if c.current_flow_state = "calibration" then "scaffolding"
      else if c.current_flow_state = "scaffolding" then "final"
      else c.current_flow_state := by
  unfold Script09.advance_flow
  split_ifs <;> rfl

/-- In a state other than diagnostic/calibration/scaffolding,
`analyze_conversation` never changes the context flow state. -/
theorem s09_analyze_flow_other (c : Script09.ChatMemoryContext)
    (text : String)
    (h1 : c.current_flow_state ≠ "diagnostic")
    (h2 : c.current_flow_state ≠ "calibration")
    (h3 : c.current_flow_state ≠ "scaffolding") :
    Script09.analyze_conversation_flow c text = c := by
  unfold Script09.analyze_conversation_flow
  split_ifs <;> simp_all

/-- When the replace at line 419 removes every sentinel occurrence, the
check at line 470 of `analyze_conversation` cannot fire: the only
remaining flow change is the forced calibration transfer. -/
theorem s09_analyze_flow_stripped (c : Script09.ChatMemoryContext)
    (text : String)
    (hsent : strContains text Script09.sentinel = true)
    (hres : strContains (Script09.sentinelStripped text)
      Script09.sentinel = false) :
    Script09.analyze_conversation_flow c text =
      if c.current_flow_state = "calibration" ∧ c.user_feedback ≠ [] then
        Script09.advance_flow c
      else c := by
  unfold Script09.analyze_conversation_flow
  simp only [hsent, if_true, if_pos]
  rw [if_neg]
  simp [hres]

/-- Full characterization of `analyze_conversation` on a
sentinel-bearing response: the check at line 470 sees the content left
by the replace-and-strip of line 419, so it fires exactly when a
sentinel occurrence survives the stripping (CPython's `replace` rescans
only past each match, so deleting occurrences can splice the
surrounding fragments into a new one); otherwise only the forced
calibration-with-feedback transfer remains. -/
theorem s09_analyze_flow_sentinel (c : Script09.ChatMemoryContext)
    (text : String)
    (hsent : strContains text Script09.sentinel = true) :
    Script09.analyze_conversation_flow c text =
      if strContains (Script09.sentinelStripped text)
          Script09.sentinel = true then
        (if c.current_flow_state = "diagnostic" then Script09.advance_flow c
        else if c.current_flow_state = "calibration" then
          Script09.advance_flow c
        else if c.current_flow_state = "scaffolding" then
          Script09.advance_flow c
        else c)
      else
        (if c.current_flow_state = "calibration" ∧
            c.user_feedback ≠ [] then Script09.advance_flow c
        else c) := by
  unfold Script09.analyze_conversation_flow
  simp only [hsent, if_true]

/-- The flow state after the chat loop handles a sentinel-bearing
response: one forward step in diagnostic/calibration/scaffolding,
no change anywhere else. -/
theorem s09_chat_step_sentinel (c : Script09.ChatMemoryContext)
    (q : Bool) (text : String)
    (h : strContains text Script09.sentinel = true) :
    (Script09.chat_response_step c q text).current_flow_state =
      if c.current_flow_state = "diagnostic" then "calibration"
      else if c.current_flow_state = "calibration" then "scaffolding"
      else if c.current_flow_state = "scaffolding" then "final"
      else c.current_flow_state := by
  unfold Script09.chat_response_step
  by_cases h1 : c.current_flow_state = "diagnostic" ∧ q = true ∧
      strContains text "?" = false
  · rw [if_pos h1]
    simp [h1.1]
  · rw [if_neg h1, if_pos h]
    by_cases hd : c.current_flow_state = "diagnostic"
    · simp [hd]
    · by_cases hc : c.current_flow_state = "calibration"
      · simp [hd, hc]
      · by_cases hs : c.current_flow_state = "scaffolding"
        · simp [hd, hc, hs]
        · rw [if_neg hd, if_neg hc, if_neg hs,
            s09_analyze_flow_other c text hd hc hs]
          simp [hd, hc, hs]

/-! ## Claims -/

/-- C1: the math-tutor phase machine is linear on
initial → diagnostic → calibration → scaffolding → final: `advance_flow`
moves `current_flow_state` exactly one step forward along this order,
and leaves it unchanged at the last phase and at any value outside the
listed phases. -/
theorem C1_advance_flow_linear :
    (∀ c : Script09.ChatMemoryContext, c.current_flow_state = "initial" →
      (Script09.advance_flow c).current_flow_state = "diagnostic")
    ∧ (∀ c : Script09.ChatMemoryContext,
        c.current_flow_state = "diagnostic" →
      (Script09.advance_flow c).current_flow_state = "calibration")
    ∧ (∀ c : Script09.ChatMemoryContext,
        c.current_flow_state = "calibration" →
      (Script09.advance_flow c).current_flow_state = "scaffolding")
    ∧ (∀ c : Script09.ChatMemoryContext,
        c.current_flow_state = "scaffolding" →
      (Script09.advance_flow c).current_flow_state = "final")
    ∧ (∀ c : Script09.ChatMemoryContext, c.current_flow_state = "final" →
      (Script09.advance_flow c).current_flow_state = "final")
    ∧ (∀ c : Script09.ChatMemoryContext,
        c.current_flow_state ∉ Script09.phases →
      (Script09.advance_flow c).current_flow_state =
        c.current_flow_state) := by
  refine ⟨?_, ?_, ?_, ?_, ?_, ?_⟩ <;> intro c h <;>
    rw [s09_advance_flow_state]
  · simp [h]
  · simp [h]
  · simp [h]
  · simp [h]
  · simp [h]
  · simp only [Script09.phases, List.mem_cons, List.mem_singleton,
      not_or] at h
    simp [h.1, h.2.1, h.2.2.1, h.2.2.2.1]

/-- Witness for C1 at concrete phases, including a value outside the
phase list. -/
theorem C1_advance_flow_linear_witness :
    (Script09.advance_flow (Script09.ctxWith "initial")).current_flow_state
      = "diagnostic"
    ∧ (Script09.advance_flow
        (Script09.ctxWith "scaffolding")).current_flow_state = "final"
    ∧ (Script09.advance_flow
        (Script09.ctxWith "final")).current_flow_state = "final"
    ∧ (Script09.advance_flow
        (Script09.ctxWith "bogus")).current_flow_state = "bogus" :=
  ⟨C1_advance_flow_linear.1 _ rfl,
   C1_advance_flow_linear.2.2.2.1 _ rfl,
   C1_advance_flow_linear.2.2.2.2.1 _ rfl,
   C1_advance_flow_linear.2.2.2.2.2 _ (by decide)⟩

/-- C2 counterexample: a calibrator response consisting of the sentinel
alone, analysed by `analyze_conversation` in phase calibration with no
feedback recorded (exactly how the script handles the extra calibrator
turn), leaves `current_flow_state` at "calibration" although the claim
demands an advance to "scaffolding": line 419 deletes the sentinel
before the check at line 470 can see it. -/
theorem C2_sentinel_advance_counterexample :
    (Script09.analyze_conversation_flow (Script09.ctxWith "calibration")
      "[TRANSFERENCIA_CONTROL]").current_flow_state = "calibration"
    ∧ (Script09.advance_flow
        (Script09.ctxWith "calibration")).current_flow_state =
      "scaffolding" := by
  constructor <;> rfl

/-- C2 (amended): a sentinel-bearing response advances the phase exactly
when the chat loop itself checks it in phase diagnostic, calibration or
scaffolding, and leaves every other phase unchanged; on the same
response, `analyze_conversation` on its own advances one step exactly
when a sentinel occurrence survives the replace-and-strip of line 419
(possible only when the removal splices the surrounding fragments into a
new occurrence) and the phase is diagnostic, calibration or scaffolding
— otherwise its only phase change is the forced
calibration-with-feedback transfer. -/
theorem C2_sentinel_advance_amended :
    ∀ (c : Script09.ChatMemoryContext) (q : Bool) (text : String),
      strContains text Script09.sentinel = true →
      ((Script09.chat_response_step c q text).current_flow_state =
        (if c.current_flow_state = "diagnostic" ∨
            c.current_flow_state = "calibration" ∨
            c.current_flow_state = "scaffolding" then
          (Script09.advance_flow c).current_flow_state
        else c.current_flow_state))
      ∧ ((Script09.analyze_conversation_flow c text).current_flow_state =
          if strContains (Script09.sentinelStripped text)
              Script09.sentinel = true then
            (if c.current_flow_state = "diagnostic" ∨
                c.current_flow_state = "calibration" ∨
                c.current_flow_state = "scaffolding" then
              (Script09.advance_flow c).current_flow_state
            else c.current_flow_state)
          else
            (if c.current_flow_state = "calibration" ∧
                c.user_feedback ≠ [] then "scaffolding"
            else c.current_flow_state)) := by
  intro c q text h
  constructor
  · rw [s09_chat_step_sentinel c q text h, s09_advance_flow_state]
    by_cases hd : c.current_flow_state = "diagnostic" <;>
      by_cases hc : c.current_flow_state = "calibration" <;>
        by_cases hs : c.current_flow_state = "scaffolding" <;>
          simp_all
  · rw [s09_analyze_flow_sentinel c text h]
    by_cases hres : strContains (Script09.sentinelStripped text)
        Script09.sentinel = true
    · rw [if_pos hres, if_pos hres]
      by_cases hd : c.current_flow_state = "diagnostic" <;>
        by_cases hc : c.current_flow_state = "calibration" <;>
          by_cases hs : c.current_flow_state = "scaffolding" <;>
            simp_all
    · rw [if_neg hres, if_neg hres]
      by_cases hcf : c.current_flow_state = "calibration" ∧
          c.user_feedback ≠ []
      · rw [if_pos hcf, if_pos hcf, s09_advance_flow_state]
        simp [hcf.1]
      · rw [if_neg hcf, if_neg hcf]

/-- Witness for C2 (amended): in phase diagnostic the chat loop advances
a sentinel response to calibration; `analyze_conversation` alone leaves
a plain sentinel response at diagnostic, but does advance a splice
response whose stripping yields a fresh sentinel occurrence. -/
theorem C2_sentinel_advance_amended_witness :
    (Script09.chat_response_step (Script09.ctxWith "diagnostic") false
      "[TRANSFERENCIA_CONTROL]").current_flow_state = "calibration"
    ∧ (Script09.analyze_conversation_flow (Script09.ctxWith "diagnostic")
        "[TRANSFERENCIA_CONTROL]").current_flow_state = "diagnostic"
    ∧ (Script09.analyze_conversation_flow (Script09.ctxWith "diagnostic")
        "[TRANSFEREN[TRANSFERENCIA_CONTROL]CIA_CONTROL]").current_flow_state
      = "calibration" := by
  have h1 := C2_sentinel_advance_amended (Script09.ctxWith "diagnostic")
    false "[TRANSFERENCIA_CONTROL]" (by decide)
  have h2 := C2_sentinel_advance_amended (Script09.ctxWith "diagnostic")
    false "[TRANSFEREN[TRANSFERENCIA_CONTROL]CIA_CONTROL]" (by decide)
  refine ⟨?_, ?_, ?_⟩
  · rw [h1.1]
    rfl
  · rw [h1.2]
    rfl
  · rw [h2.2]
    rfl

/-- C3: `add_message(role, content)` appends exactly the entry
`role ++ ": " ++ content` at the end of `history` (leaving every earlier
entry unchanged), and `get_history` joins all entries with newlines in
insertion order — in the math-tutor context and in the unified-memory
context alike. -/
theorem C3_add_message_appends :
    ∀ (role content : String),
      (∀ c : Script09.ChatMemoryContext,
        ((Script09.add_message c role content).history =
          c.history ++ [role ++ ": " ++ content])
        ∧ (∀ i : Nat, i < c.history.length →
            (Script09.add_message c role content).history[i]? =
              c.history[i]?)
        ∧ (Script09.get_history (Script09.add_message c role content) =
            if c.history = [] then role ++ ": " ++ content
            else Script09.get_history c ++ "\n" ++
              (role ++ ": " ++ content)))
      ∧ (∀ c : Script08.ChatMemoryContext,
        ((Script08.add_message c role content).history =
          c.history ++ [role ++ ": " ++ content])
        ∧ (∀ i : Nat, i < c.history.length →
            (Script08.add_message c role content).history[i]? =
              c.history[i]?)
        ∧ (Script08.get_history (Script08.add_message c role content) =
            if c.history = [] then role ++ ": " ++ content
            else Script08.get_history c ++ "\n" ++
              (role ++ ": " ++ content))) := by
  intro role content
  constructor
  · intro c
    refine ⟨rfl, ?_, ?_⟩
    · intro i hi
      show (c.history ++ [role ++ ": " ++ content])[i]? = c.history[i]?
      rw [List.getElem?_append, if_pos hi]
    · show joinNl (c.history ++ [role ++ ": " ++ content]) = _
      rw [joinNl_append]
      rfl
  · intro c
    refine ⟨rfl, ?_, ?_⟩
    · intro i hi
      show (c.history ++ [role ++ ": " ++ content])[i]? = c.history[i]?
      rw [List.getElem?_append, if_pos hi]
    · show joinNl (c.history ++ [role ++ ": " ++ content]) = _
      rw [joinNl_append]
      rfl

/-- Witness for C3: one concrete append on a one-entry history. -/
theorem C3_add_message_appends_witness :
    ((Script09.add_message
        ⟨["Usuario: hola"], "", "", "", [], [], "", "", false, "initial"⟩
        "Asistente" "buenos dias").history =
      ["Usuario: hola", "Asistente: buenos dias"])
    ∧ ((Script09.add_message
        ⟨["Usuario: hola"], "", "", "", [], [], "", "", false, "initial"⟩
        "Asistente" "buenos dias").history[0]? = some "Usuario: hola")
    ∧ (Script09.get_history (Script09.add_message
        ⟨["Usuario: hola"], "", "", "", [], [], "", "", false, "initial"⟩
        "Asistente" "buenos dias") =
      "Usuario: hola\nAsistente: buenos dias") := by
  have h := (C3_add_message_appends "Asistente" "buenos dias").1
    ⟨["Usuario: hola"], "", "", "", [], [], "", "", false, "initial"⟩
  refine ⟨h.1, ?_, ?_⟩
  · rw [h.2.1 0 (by decide)]
    rfl
  · rw [h.2.2]
    rfl

/-- C4 helper: replaying messages through the script-05 context adds one
to the two language counters combined for every assistant-role message. -/
theorem s05_counters_sum (msgs : List (String × String)) :
    ∀ c : Script05.ChatMemoryContext,
      ((msgs.foldl (fun c m => Script05.add_message c m.1 m.2)
          c).spanish_responses +
        (msgs.foldl (fun c m => Script05.add_message c m.1 m.2)
          c).english_responses) =
      c.spanish_responses + c.english_responses +
        msgs.countP (fun m => m.1 == "assistant") := by
  induction msgs with
  | nil => intro c; simp
  | cons m t ih =>
    intro c
    rw [List.foldl_cons, ih, List.countP_cons]
    have hsum : (Script05.add_message c m.1 m.2).spanish_responses +
        (Script05.add_message c m.1 m.2).english_responses =
        c.spanish_responses + c.english_responses +
          (if m.1 == "assistant" then 1 else 0) := by
      unfold Script05.add_message
      by_cases h : m.1 = "assistant"
      · by_cases h2 : c.spanish_responses < 2 <;> simp [h, h2] <;> omega
      · simp [h]
    rw [hsum]
    omega

/-- C4 helper: replaying messages through the script-07 context adds one
to `response_count` for every assistant-role message. -/
theorem s07_response_count (msgs : List (String × String)) :
    ∀ c : Script07.ChatMemoryContext,
      (msgs.foldl (fun c m => Script07.add_message c m.1 m.2)
          c).response_count =
      c.response_count + msgs.countP (fun m => m.1 == "assistant") := by
  induction msgs with
  | nil => intro c; simp
  | cons m t ih =>
    intro c
    rw [List.foldl_cons, ih, List.countP_cons]
    have hcnt : (Script07.add_message c m.1 m.2).response_count =
        c.response_count + (if m.1 == "assistant" then 1 else 0) := by
      unfold Script07.add_message
      by_cases h : m.1 = "assistant" <;> simp [h]
    rw [hcnt]
    omega

/-- C4: the response-limit bookkeeping of the two sequential-handoff
re-implementations is equivalent: replaying any message sequence from
fresh contexts, `can_respond` of script 05 equals `can_respond` of
script 07, and both are true exactly when fewer than four messages with
role "assistant" have been added. -/
theorem C4_can_respond_equivalent :
    ∀ msgs : List (String × String),
      (Script05.can_respond (Script05.runMsgs msgs) =
        Script07.can_respond (Script07.runMsgs msgs))
      ∧ (Script05.can_respond (Script05.runMsgs msgs) = true ↔
          msgs.countP (fun m => m.1 == "assistant") < 4) := by
  intro msgs
  have h5 : Script05.can_respond (Script05.runMsgs msgs) =
      decide (msgs.countP (fun m => m.1 == "assistant") < 4) := by
    unfold Script05.can_respond Script05.runMsgs
    rw [s05_counters_sum msgs Script05.init]
    simp [Script05.init]
  have h7 : Script07.can_respond (Script07.runMsgs msgs) =
      decide (msgs.countP (fun m => m.1 == "assistant") < 4) := by
    unfold Script07.can_respond Script07.runMsgs
    rw [s07_response_count msgs Script07.init]
    simp [Script07.init]
  refine ⟨by rw [h5, h7], ?_⟩
  rw [h5]
  exact decide_eq_true_iff

/-- C5: the `detect_language` functions duplicated in
`04_chat_agent_programmatic.py` and `06_chat_agent_programmatic.py`
agree on every input string (their bodies are identical). -/
theorem C5_detect_language_duplicates_equal :
    ∀ s : String, Script04p.detect_language s = Script06p.detect_language s :=
  fun _ => rfl

/-- C6: `process_response_for_display` withholds the entire message when
the sentinel occurs anywhere in it, and returns the response unchanged
when the sentinel does not occur. -/
theorem C6_display_withholds_sentinel :
    ∀ response : String,
      (strContains response Script09.sentinel = true →
        Script09.process_response_for_display response = "")
      ∧ (strContains response Script09.sentinel = false →
        Script09.process_response_for_display response = response) := by
  intro response
  constructor <;> intro h <;> simp [Script09.process_response_for_display, h]

/-- Witness for C6: the sentinel embedded mid-message suppresses the
whole message; a sentinel-free message passes through unchanged. -/
theorem C6_display_withholds_sentinel_witness :
    Script09.process_response_for_display
      "Listo. [TRANSFERENCIA_CONTROL] Gracias." = ""
    ∧ Script09.process_response_for_display "hola" = "hola" :=
  ⟨(C6_display_withholds_sentinel
      "Listo. [TRANSFERENCIA_CONTROL] Gracias.").1 (by decide),
   (C6_display_withholds_sentinel "hola").2 (by decide)⟩

/-- C7: every triage agent the scripts construct routes to exactly the
Spanish agent and the English agent, in that order, and declares no
tools — for the module-level triage agents of scripts 01 and 03, for the
`create_triage_agent` constructors of scripts 04 (memory), 05 (debug),
07 (memory) and 08, and for script 05, whose handoffs are dict wrappers
targeting the Spanish and English agents in that order. -/
theorem C7_triage_routing_only :
    (Script01.triage_agent.handoffs =
      [Script01.spanish_agent, Script01.english_agent]
      ∧ Script01.triage_agent.tools = [])
    ∧ (Script03.triage_agent.handoffs =
        [Script03.spanish_agent, Script03.english_agent]
      ∧ Script03.triage_agent.tools = [])
    ∧ (∀ sp en : AgentBase,
        (Script04m.create_triage_agent sp en).handoffs = [sp, en]
        ∧ (Script04m.create_triage_agent sp en).tools = [])
    ∧ (∀ sp en : AgentBase,
        (Script05d.create_triage_agent sp en).handoffs = [sp, en]
        ∧ (Script05d.create_triage_agent sp en).tools = [])
    ∧ (∀ sp en : AgentBase,
        (Script07m.create_triage_agent sp en).handoffs = [sp, en]
        ∧ (Script07m.create_triage_agent sp en).tools = [])
    ∧ (∀ sp en : AgentBase,
        (Script08.create_triage_agent sp en).handoffs = [sp, en]
        ∧ (Script08.create_triage_agent sp en).tools = [])
    ∧ (∀ sp en : AgentBase,
        ((Script05.create_triage_agent sp en).handoffs.map
          HandoffDecl.agent) = [sp, en]
        ∧ (Script05.create_triage_agent sp en).tools = []) :=
  ⟨⟨rfl, rfl⟩, ⟨rfl, rfl⟩, fun _ _ => ⟨rfl, rfl⟩, fun _ _ => ⟨rfl, rfl⟩,
   fun _ _ => ⟨rfl, rfl⟩, fun _ _ => ⟨rfl, rfl⟩, fun _ _ => ⟨rfl, rfl⟩⟩

/-- C8: `calculate` never propagates an exception: whatever the `eval`
oracle does, the result carries the unchanged operation string, with the
evaluated value when `eval` succeeds and `NaN` when it raises — in
`03_chat_agent_basic.py` and `04_chat_agent_with_memory.py` alike. -/
theorem C8_calculate_total :
    ∀ (ev : String → Option PyFloat) (op : String),
      ((Script03.calculate ev op).operation = op
        ∧ (ev op = none →
            (Script03.calculate ev op).result = PyFloat.nan)
        ∧ (∀ v, ev op = some v → (Script03.calculate ev op).result = v))
      ∧ ((Script04m.calculate ev op).operation = op
        ∧ (ev op = none →
            (Script04m.calculate ev op).result = PyFloat.nan)
        ∧ (∀ v, ev op = some v →
            (Script04m.calculate ev op).result = v)) := by
  intro ev op
  cases h : ev op <;>
    simp [Script03.calculate, Script04m.calculate, h]

/-- Witness for C8: an always-raising oracle yields `NaN` with the input
echoed; a succeeding oracle yields its value. -/
theorem C8_calculate_total_witness :
    ((Script03.calculate (fun _ => none) "1/0").operation = "1/0"
      ∧ (Script03.calculate (fun _ => none) "1/0").result = PyFloat.nan)
    ∧ (Script04m.calculate (fun _ => some (PyFloat.val 4)) "2+2").result =
      PyFloat.val 4 :=
  ⟨⟨(C8_calculate_total (fun _ => none) "1/0").1.1,
    (C8_calculate_total (fun _ => none) "1/0").1.2.1 rfl⟩,
   (C8_calculate_total (fun _ => some (PyFloat.val 4)) "2+2").2.2.2
     (PyFloat.val 4) rfl⟩

/-- C9: `detect_language` is total and binary-valued: it returns
"spanish" exactly when strictly more Spanish patterns than English
patterns occur as substrings of the lowercased input, it returns
"english" on every tie, and it returns "english" on the empty string. -/
theorem C9_detect_language_majority :
    (∀ s : String,
      (Script04p.detect_language s = "spanish"
        ∨ Script04p.detect_language s = "english")
      ∧ (Script04p.detect_language s = "spanish" ↔
          Script04p.english_patterns.countP
              (fun p => strContains (pyLower s) p) <
            Script04p.spanish_patterns.countP
              (fun p => strContains (pyLower s) p))
      ∧ (Script04p.spanish_patterns.countP
            (fun p => strContains (pyLower s) p) =
          Script04p.english_patterns.countP
            (fun p => strContains (pyLower s) p) →
          Script04p.detect_language s = "english"))
    ∧ Script04p.detect_language "" = "english" := by
  constructor
  · intro s
    unfold Script04p.detect_language
    by_cases h : Script04p.english_patterns.countP
        (fun p => strContains (pyLower s) p) <
      Script04p.spanish_patterns.countP
        (fun p => strContains (pyLower s) p)
    · rw [if_pos h]
      refine ⟨Or.inl rfl, ⟨fun _ => h, fun _ => rfl⟩, ?_⟩
      intro heq
      rw [heq] at h
      exact absurd h (lt_irrefl _)
    · rw [if_neg h]
      refine ⟨Or.inr rfl, ⟨fun hx => ?_, fun hx => absurd hx h⟩,
        fun _ => rfl⟩
      exact absurd hx (by decide)
  · rfl

/-- Witness for C9: the tie on the empty input gives "english". -/
theorem C9_detect_language_majority_witness :
    Script04p.detect_language "" = "english" :=
  (C9_detect_language_majority.1 "").2.2 (by decide)

/-- C10: `get_weather` echoes its argument and otherwise returns the
fixed shape: temperature range "14-20C" and conditions
"Sunny with wind." — in `02_test_tools.py` and `03_chat_agent_basic.py`
alike. -/
theorem C10_get_weather_fixed :
    ∀ city : String,
      ((Script02.get_weather city).city = city
        ∧ (Script02.get_weather city).temperature_range = "14-20C"
        ∧ (Script02.get_weather city).conditions = "Sunny with wind.")
      ∧ ((Script03.get_weather city).city = city
        ∧ (Script03.get_weather city).temperature_range = "14-20C"
        ∧ (Script03.get_weather city).conditions = "Sunny with wind.") :=
  fun _ => ⟨⟨rfl, rfl, rfl⟩, ⟨rfl, rfl, rfl⟩⟩
